import Mathlib

/-!
Shallow embedding of the core of a Telegram relay bot (`bot.py`):
the per-user rate limiter (`UserRateLimit`), the completion client
(`AIProvider.get_response` under a 3-attempt retry decorator), the
reply-truncation step of `handle_message`, and the group allow-list
check of `handle_new_chat_members`.

Timestamps are modelled as natural numbers (seconds); durations and
time differences as integers, since Python `timedelta` subtraction can
be negative. User and chat ids are integers.
-/

/-- Pointwise update of a map modelled as a total function, mirroring a
Python dict assignment `m[k] = v`. -/
def updMap {α : Type} (f : ℤ → α) (k : ℤ) (v : α) : ℤ → α :=
  fun u => if u = k then v else f u

/-- State of the `UserRateLimit` class: `last_message_time` and
`reset_time` are dicts (absent key = `none`), `message_count` is a
`defaultdict(int)` (total map, default 0), and the two configuration
values captured in `__init__`. -/
structure UserRateLimit where
  last_message_time : ℤ → Option ℕ
  message_count : ℤ → ℕ
  reset_time : ℤ → Option ℕ
  max_messages : ℕ
  cooldown_time : ℤ

/-- `UserRateLimit.__init__`: empty dicts, configuration thresholds. -/
def UserRateLimit.mk0 (max_messages_per_hour : ℕ) (cooldown_seconds : ℤ) : UserRateLimit :=
  { last_message_time := fun _ => none
    message_count := fun _ => 0
    reset_time := fun _ => none
    max_messages := max_messages_per_hour
    cooldown_time := cooldown_seconds }

/-- Outcome of an admission check, labelling the branch of
`can_send_message` that produced the boolean result: the early
`return False` inside the cooldown test is `deniedCooldown`; a false
final comparison `message_count < max_messages` is `deniedQuota`. -/
inductive Decision where
  | admitted
  | deniedCooldown
  | deniedQuota
deriving DecidableEq, Repr

/-- The reset step opening `can_send_message`:
`if user_id in self.reset_time and now > self.reset_time[user_id]:
self.message_count[user_id] = 0`. -/
def resetIfPassed (s : UserRateLimit) (user_id : ℤ) (now : ℕ) : UserRateLimit :=
  match s.reset_time user_id with
  | some rt =>
      if rt < now then { s with message_count := updMap s.message_count user_id 0 } else s
  | none => s

/-- The rest of `can_send_message`, evaluated on the state left by the
reset step: the cooldown early return (`deniedCooldown`), then the
final comparison `message_count[user_id] < max_messages` (`admitted`
when true, `deniedQuota` when false). -/
def decide_admission (s1 : UserRateLimit) (user_id : ℤ) (now : ℕ) : Decision :=
  match s1.last_message_time user_id with
  | some lmt =>
      if (now : ℤ) - (lmt : ℤ) < s1.cooldown_time then .deniedCooldown
      else if s1.message_count user_id < s1.max_messages then .admitted
      else .deniedQuota
  | none =>
      if s1.message_count user_id < s1.max_messages then .admitted
      else .deniedQuota

/-- `UserRateLimit.can_send_message(user_id)` evaluated at time `now`,
with the branch producing the boolean result made explicit. Returns
the decision together with the state after the call (the method
mutates `message_count` when the reset fires, and nothing else). -/
def can_send_message_decision (s : UserRateLimit) (user_id : ℤ) (now : ℕ) :
    Decision × UserRateLimit :=
  let s1 := resetIfPassed s user_id now
  (decide_admission s1 user_id now, s1)

/-- The boolean value `can_send_message` actually returns, paired with
the post-call state. -/
def can_send_message (s : UserRateLimit) (user_id : ℤ) (now : ℕ) : Bool × UserRateLimit :=
  let r := can_send_message_decision s user_id now
  (r.1 = Decision.admitted, r.2)

/-- `UserRateLimit.update_user(user_id)` at time `now`: records the
message time, increments the count, and sets the reset time to the
start of the next clock hour (`now` truncated to the hour, plus one
hour; one hour = 3600 seconds). -/
def update_user (s : UserRateLimit) (user_id : ℤ) (now : ℕ) : UserRateLimit :=
  { s with
    last_message_time := updMap s.last_message_time user_id (some now)
    message_count := updMap s.message_count user_id (s.message_count user_id + 1)
    reset_time := updMap s.reset_time user_id (some (now / 3600 * 3600 + 3600)) }

/-- The rate-limiting step of `handle_message`: check, and if admitted,
record via `update_user` (otherwise the message is dropped and state is
left as the check left it). -/
def process_message (s : UserRateLimit) (user_id : ℤ) (now : ℕ) : UserRateLimit :=
  let r := can_send_message s user_id now
  if r.1 then update_user r.2 user_id now else r.2

/-- A sequence of inbound messages from one user at the given times,
each run through the check-then-record step. -/
def process_messages (s : UserRateLimit) (user_id : ℤ) : List ℕ → UserRateLimit
  | [] => s
  | t :: ts => process_messages (process_message s user_id t) user_id ts

/-- One item of the response body's content array; only its text field
is read (`response_data['content'][0]['text']`). -/
structure ContentItem where
  text : String
deriving DecidableEq, Repr

/-- Parsed JSON body of an API response: the content array, which may
be missing entirely (`'content' in response_data` fails). -/
structure ResponseBody where
  content : Option (List ContentItem)
deriving DecidableEq, Repr

/-- Outcome of one `requests.post` round trip: either an HTTP
response (status code and parsed body) or a connection-level
`RequestException` with no response attached. -/
inductive HttpResult where
  | resp (status : ℕ) (body : ResponseBody)
  | connError
deriving DecidableEq, Repr

/-- The exception a single attempt of `get_response` can raise:
`raise_for_status` on a 4xx/5xx status, a connection error, or the
`Exception("No content in response")` for a body without a non-empty
content array. -/
inductive ApiFailure where
  | http (status : ℕ)
  | connection
  | noContent
deriving DecidableEq, Repr

/-- One attempt of the body of `AIProvider.get_response`: post the
request, `raise_for_status` (raises for status >= 400), then require a
non-empty content array and return its first element's text. -/
def get_response_attempt (r : HttpResult) : Except ApiFailure String :=
  match r with
  | .connError => .error .connection
  | .resp status body =>
      if 400 ≤ status then .error (.http status)
      else
        match body.content with
        | some (c :: _) => .ok c.text
        | some [] => .error .noContent
        | none => .error .noContent

/-- The tenacity retry loop around `get_response`:
`@retry(stop=stop_after_attempt(3), ...)` with no retry filter retries
on any raised exception. `retriesLeft` is the number of further
attempts permitted after the current one; `i` indexes attempts into the
simulated transport `responses`. Returns the final outcome and the
number of attempts made. -/
def retry_run (responses : ℕ → HttpResult) : ℕ → ℕ → Except ApiFailure String × ℕ
  | 0, i => (get_response_attempt (responses i), 1)
  | n + 1, i =>
      match get_response_attempt (responses i) with
      | .ok t => (.ok t, 1)
      | .error _ =>
          let r := retry_run responses n (i + 1)
          (r.1, r.2 + 1)

/-- `AIProvider.get_response` as decorated: up to 3 total attempts
against the simulated transport. -/
def get_response (responses : ℕ → HttpResult) : Except ApiFailure String × ℕ :=
  retry_run responses 2 0

/-- Modelled from the spec: the transient/permanent classification of a
failed attempt (connection errors and 5xx are transient; 4xx and
empty-content are permanent). The source code contains no such
classifier; this definition follows the spec's words and is used only
to state claims about classified failures. -/
def classifiedPermanent : ApiFailure → Bool
  | .http status => 400 ≤ status && status < 500
  | .connection => false
  | .noContent => true

/-- A JSON-like value, enough to express the request body the code
builds. -/
inductive JVal where
  | str (s : String)
  | nat (n : ℕ)
  | arr (l : List JVal)
  | obj (l : List (String × JVal))

/-- The `data` dict built inside `get_response`: model, max_tokens and
the single user message, then `if system_prompt:` (Python truthiness:
`None` and the empty string are both falsy) adds the top-level system
field. -/
def build_request_data (model : String) (max_tokens : ℕ) (message : String)
    (system_prompt : Option String) : List (String × JVal) :=
  let base : List (String × JVal) :=
    [("model", .str model),
     ("max_tokens", .nat max_tokens),
     ("messages", .arr [.obj [("role", .str "user"), ("content", .str message)]])]
  match system_prompt with
  | some sp => if sp = "" then base else base ++ [("system", .str sp)]
  | none => base

/-- The truncation marker appended by `handle_message`. -/
def truncationMarker : List Char := "...(response truncated)".toList

/-- The response-length check of `handle_message`: texts are sequences
of code points, slicing is `response_text[:max_response_length]`. -/
def truncate_response (max_response_length : ℕ) (response_text : List Char) : List Char :=
  if response_text.length > max_response_length then
    response_text.take max_response_length ++ truncationMarker
  else response_text

/-- `handle_new_chat_members`: the bot leaves iff it is among the new
members, the `allowed_groups` key is present in the configuration
(`none` = key absent), and `str(chat.id)` is not in the configured
list. -/
def new_chat_members_leave (allowed_groups : Option (List String)) (bot_id : ℤ)
    (new_member_ids : List ℤ) (chat_id : ℤ) : Bool :=
  if new_member_ids.any (fun m => m = bot_id) then
    match allowed_groups with
    | some gs => decide (toString chat_id ∉ gs)
    | none => false
  else false

/-- The reset step keeps the original `last_message_time`,
`reset_time`, `cooldown_time` and `max_messages`, and the counts of
all other users. -/
theorem resetIfPassed_frame (s : UserRateLimit) (uid : ℤ) (now : ℕ) :
    (resetIfPassed s uid now).last_message_time = s.last_message_time ∧
    (resetIfPassed s uid now).reset_time = s.reset_time ∧
    (resetIfPassed s uid now).cooldown_time = s.cooldown_time ∧
    (resetIfPassed s uid now).max_messages = s.max_messages ∧
    ∀ u : ℤ, u ≠ uid → (resetIfPassed s uid now).message_count u = s.message_count u := by
  rcases hr : s.reset_time uid with _ | rt
  · simp [resetIfPassed, hr]
  · by_cases hlt : rt < now
    · have h1 : resetIfPassed s uid now
          = { s with message_count := updMap s.message_count uid 0 } := by
        simp [resetIfPassed, hr, hlt]
      rw [h1]
      exact ⟨rfl, rfl, rfl, rfl, fun u hu => by simp [updMap, hu]⟩
    · simp [resetIfPassed, hr, hlt]

/-- When the reset fires (a recorded reset time strictly before `now`),
the user's count becomes 0. -/
theorem resetIfPassed_count_reset (s : UserRateLimit) (uid : ℤ) (now rt : ℕ)
    (hr : s.reset_time uid = some rt) (hlt : rt < now) :
    (resetIfPassed s uid now).message_count uid = 0 := by
  unfold resetIfPassed
  rw [hr]
  simp [hlt, updMap]

/-- When the reset does not fire, the state is untouched. -/
theorem resetIfPassed_eq_self (s : UserRateLimit) (uid : ℤ) (now : ℕ)
    (h : ∀ rt, s.reset_time uid = some rt → ¬ rt < now) :
    resetIfPassed s uid now = s := by
  unfold resetIfPassed
  cases hr : s.reset_time uid with
  | none => rfl
  | some rt => simp [h rt hr]

/-- The check's returned state is exactly the reset step's state. -/
theorem can_send_message_decision_snd (s : UserRateLimit) (uid : ℤ) (now : ℕ) :
    (can_send_message_decision s uid now).2 = resetIfPassed s uid now := rfl

/-- The check's returned decision is `decide_admission` on the reset
step's state. -/
theorem can_send_message_decision_fst (s : UserRateLimit) (uid : ℤ) (now : ℕ) :
    (can_send_message_decision s uid now).1
      = decide_admission (resetIfPassed s uid now) uid now := rfl

/-- Claim C5: an admission check within the cooldown of the recorded
last message is denied through the cooldown branch, and the check
leaves the whole `last_message_time` map unchanged. -/
theorem c5_cooldown_denied (s : UserRateLimit) (uid : ℤ) (t t' : ℕ)
    (hlast : s.last_message_time uid = some t)
    (hcd : (t' : ℤ) - (t : ℤ) < s.cooldown_time) :
    (can_send_message_decision s uid t').1 = Decision.deniedCooldown ∧
    (can_send_message_decision s uid t').2.last_message_time = s.last_message_time := by
  have hfr := resetIfPassed_frame s uid t'
  refine ⟨?_, by rw [can_send_message_decision_snd]; exact hfr.1⟩
  rw [can_send_message_decision_fst]
  unfold decide_admission
  rw [hfr.1, hlast, hfr.2.2.1]
  simp [hcd]

/-- Claim C5 witness: a user who posted at time 100 with a 5-second
cooldown is denied through the cooldown branch at time 103. -/
theorem c5_witness :
    (update_user (UserRateLimit.mk0 50 5) 1 100).last_message_time 1 = some 100 ∧
    (103 : ℤ) - (100 : ℤ) < (update_user (UserRateLimit.mk0 50 5) 1 100).cooldown_time ∧
    (can_send_message_decision (update_user (UserRateLimit.mk0 50 5) 1 100) 1 103).1
      = Decision.deniedCooldown :=
  ⟨rfl, by decide,
    (c5_cooldown_denied (update_user (UserRateLimit.mk0 50 5) 1 100) 1 100 103 rfl
      (by decide)).1⟩

/-- Claim C8 counterexample: with `max_messages_per_hour = 0` the very
first admission check of a fresh user is denied through the quota
branch, so the first check is not admitted for every configuration. -/
theorem c8_counterexample :
    (can_send_message_decision (UserRateLimit.mk0 0 5) 1 0).1 = Decision.deniedQuota ∧
    (can_send_message_decision (UserRateLimit.mk0 0 5) 1 0).1 ≠ Decision.admitted := by
  decide

/-- Claim C8 (amended): for a fresh user (no recorded state at all) the
first admission check is admitted, for every cooldown and every
`max_messages_per_hour` that is at least 1. -/
theorem c8_first_check_admitted (maxMsgs : ℕ) (cd : ℤ) (uid : ℤ) (t : ℕ)
    (hmax : 1 ≤ maxMsgs) :
    (can_send_message_decision (UserRateLimit.mk0 maxMsgs cd) uid t).1
      = Decision.admitted := by
  have h0 : 0 < maxMsgs := hmax
  simp [can_send_message_decision, resetIfPassed, decide_admission, UserRateLimit.mk0, h0]

/-- Claim C8 witness: the default-ish configuration admits a fresh
user's first check. -/
theorem c8_witness :
    1 ≤ 50 ∧
    (can_send_message_decision (UserRateLimit.mk0 50 5) 2 0).1 = Decision.admitted :=
  ⟨by decide, c8_first_check_admitted 50 5 2 0 (by decide)⟩

/-- Claim C3 counterexample: with bound 5 and a 6-character reply, the
user-facing text is the 5-character prefix plus the marker, whose total
length exceeds the configured bound — the claim that the final reply
never exceeds the bound is false. -/
theorem c3_counterexample :
    truncate_response 5 "abcdef".toList = "abcde...(response truncated)".toList ∧
    ¬ (truncate_response 5 "abcdef".toList).length ≤ 5 := by
  decide

/-- Claim C3 (amended): an over-long reply is cut to exactly the first
`max_response_length` characters and the 23-character marker is
appended, so the final text has length `max_response_length + 23`
(exceeding the bound by the marker length); a reply within the bound is
sent unmodified. -/
theorem c3_truncation (maxLen : ℕ) (r : List Char) :
    (r.length > maxLen →
      truncate_response maxLen r = r.take maxLen ++ truncationMarker ∧
      (r.take maxLen).length = maxLen ∧
      (truncate_response maxLen r).length = maxLen + truncationMarker.length) ∧
    (r.length ≤ maxLen → truncate_response maxLen r = r) ∧
    truncationMarker.length = 23 := by
  refine ⟨fun hgt => ?_, fun hle => ?_, by decide⟩
  · have htake : (r.take maxLen).length = maxLen := by
      simp [List.length_take, Nat.min_eq_left (Nat.le_of_lt hgt)]
    refine ⟨by simp [truncate_response, hgt], htake, ?_⟩
    simp [truncate_response, hgt, htake]
  · simp [truncate_response, Nat.not_lt_of_le hle]

/-- Claim C3 witness: bound 4 and the 5-character reply "hello". -/
theorem c3_witness :
    ("hello".toList.length > 4) ∧
    truncate_response 4 "hello".toList = "hello".toList.take 4 ++ truncationMarker ∧
    (truncate_response 4 "hello".toList).length = 4 + truncationMarker.length :=
  ⟨by decide, ((c3_truncation 4 "hello".toList).1 (by decide)).1,
    ((c3_truncation 4 "hello".toList).1 (by decide)).2.2⟩

/-- The user's count after the reset step is either untouched or 0. -/
theorem resetIfPassed_count_cases (s : UserRateLimit) (uid : ℤ) (now : ℕ) :
    (resetIfPassed s uid now).message_count uid = s.message_count uid ∨
    (resetIfPassed s uid now).message_count uid = 0 := by
  unfold resetIfPassed
  rcases hr : s.reset_time uid with _ | rt
  · left; rfl
  · by_cases hlt : rt < now
    · right; simp [hlt, updMap]
    · left; simp [hlt]

/-- Claim C10: an admission check never touches `last_message_time` or
`reset_time` and never touches other users' counts; the checked user's
count is either left alone or set to 0, and it is set to 0 whenever
the recorded reset time is strictly before `now` (whatever the
decision). Conversely `update_user` always increments the updated
user's count, so it never resets a count to 0. -/
theorem c10_check_frame (s : UserRateLimit) (uid : ℤ) (now : ℕ) :
    (can_send_message_decision s uid now).2.last_message_time = s.last_message_time ∧
    (can_send_message_decision s uid now).2.reset_time = s.reset_time ∧
    (∀ u : ℤ, u ≠ uid →
      (can_send_message_decision s uid now).2.message_count u = s.message_count u) ∧
    ((can_send_message_decision s uid now).2.message_count uid = s.message_count uid ∨
      (can_send_message_decision s uid now).2.message_count uid = 0) ∧
    (∀ rt : ℕ, s.reset_time uid = some rt → rt < now →
      (can_send_message_decision s uid now).2.message_count uid = 0) ∧
    (∀ (u : ℤ) (t : ℕ),
      (update_user s u t).message_count u = s.message_count u + 1 ∧
      (update_user s u t).message_count u ≠ 0) := by
  rw [can_send_message_decision_snd]
  refine ⟨(resetIfPassed_frame s uid now).1, (resetIfPassed_frame s uid now).2.1,
    (resetIfPassed_frame s uid now).2.2.2.2, resetIfPassed_count_cases s uid now,
    fun rt hr hlt => resetIfPassed_count_reset s uid now rt hr hlt,
    fun u t => ⟨by simp [update_user, updMap], by simp [update_user, updMap]⟩⟩

/-- Claim C10 witness: a user whose window expired at 3600 is checked
at 4000; the count is reset to 0 and the reset time is untouched. -/
theorem c10_witness :
    (update_user (UserRateLimit.mk0 1 5) 1 100).reset_time 1 = some 3600 ∧
    3600 < 4000 ∧
    (can_send_message_decision (update_user (UserRateLimit.mk0 1 5) 1 100) 1 4000).2.message_count 1
      = 0 :=
  ⟨rfl, by decide,
    (c10_check_frame (update_user (UserRateLimit.mk0 1 5) 1 100) 1 4000).2.2.2.2.1
      3600 rfl (by decide)⟩

/-- Claim C4 counterexample: with an empty (but present) allow-list
configuration, the bot leaves every group it is added to — the claim
that an empty allow-list never triggers a leave is false. -/
theorem c4_counterexample :
    new_chat_members_leave (some []) 1 [1] 42 = true := by decide

/-- Claim C4 (amended): for a group-add event in which the bot is among
the new members, a leave is signalled iff the allow-list key is present
in the configuration and the group's id is absent from it — so an
empty configured list leaves every group, and only an unset key never
triggers a leave. Without the bot among the new members nothing
happens. -/
theorem c4_group_allowlist (allowed : Option (List String)) (bot_id : ℤ)
    (members : List ℤ) (chat_id : ℤ) :
    (bot_id ∈ members →
      (new_chat_members_leave allowed bot_id members chat_id = true ↔
        ∃ gs, allowed = some gs ∧ toString chat_id ∉ gs)) ∧
    (allowed = none → new_chat_members_leave allowed bot_id members chat_id = false) ∧
    (bot_id ∉ members → new_chat_members_leave allowed bot_id members chat_id = false) := by
  refine ⟨fun hmem => ?_, fun hnone => ?_, fun hmem => ?_⟩
  · have hany : (members.any fun m => decide (m = bot_id)) = true :=
      List.any_eq_true.mpr ⟨bot_id, hmem, by simp⟩
    unfold new_chat_members_leave
    rw [if_pos hany]
    cases allowed with
    | none => simp
    | some gs => simp
  · subst hnone
    simp [new_chat_members_leave]
  · have hany : (members.any fun m => decide (m = bot_id)) = false := by
      rw [List.any_eq_false]
      intro x hx
      simp only [decide_eq_true_eq]
      intro hxe
      exact hmem (hxe ▸ hx)
    unfold new_chat_members_leave
    rw [hany]
    simp

/-- Claim C4 witness: bot id 7 added to group 42 with allow-list
containing only "1": the bot leaves. -/
theorem c4_witness :
    (7 : ℤ) ∈ ([7] : List ℤ) ∧
    new_chat_members_leave (some ["1"]) 7 [7] 42 = true :=
  ⟨by decide,
    ((c4_group_allowlist (some ["1"]) 7 [7] 42).1 (by decide)).mpr
      ⟨["1"], rfl, by decide⟩⟩

/-- Claim C9 counterexample: an empty-string system prompt is supplied
but Python truthiness drops it, so no top-level system field is added —
the claimed present-iff-supplied equivalence is false. -/
theorem c9_counterexample :
    (build_request_data "m" 7 "q" (some "")).lookup "system" = none ∧
    (some "" : Option String) ≠ none :=
  ⟨rfl, by simp⟩

/-- Claim C9 (amended): the outbound body is a single-turn request with
keys model, max_tokens and messages, the sole message being
role "user" with content exactly the question (the system prompt is
never concatenated into it); the top-level system field is present iff
a system prompt is supplied and non-empty. -/
theorem c9_request_shape (model : String) (max_tokens : ℕ) (q : String)
    (s : Option String) :
    (build_request_data model max_tokens q s).lookup "messages"
      = some (.arr [.obj [("role", .str "user"), ("content", .str q)]]) ∧
    (build_request_data model max_tokens q s).lookup "model" = some (.str model) ∧
    (build_request_data model max_tokens q s).lookup "max_tokens" = some (.nat max_tokens) ∧
    (∀ sp, s = some sp → sp ≠ "" →
      (build_request_data model max_tokens q s).lookup "system" = some (.str sp)) ∧
    (s = none → (build_request_data model max_tokens q s).lookup "system" = none) ∧
    (s = some "" → (build_request_data model max_tokens q s).lookup "system" = none) ∧
    ((build_request_data model max_tokens q s).map Prod.fst
        = ["model", "max_tokens", "messages"] ∨
      (build_request_data model max_tokens q s).map Prod.fst
        = ["model", "max_tokens", "messages", "system"]) := by
  rcases s with _ | sp
  · refine ⟨rfl, rfl, rfl, ?_, ?_, ?_, Or.inl rfl⟩
    · intro sp h h'
      exact absurd h (by simp)
    · intro h
      rfl
    · intro h
      exact absurd h (by simp)
  · by_cases hsp : sp = ""
    · subst hsp
      refine ⟨rfl, rfl, rfl, ?_, ?_, ?_, Or.inl rfl⟩
      · intro sp' h h'
        rw [Option.some.injEq] at h
        exact absurd h.symm h'
      · intro h
        exact absurd h (by simp)
      · intro h
        rfl
    · have hdata : build_request_data model max_tokens q (some sp)
          = [("model", .str model), ("max_tokens", .nat max_tokens),
             ("messages", .arr [.obj [("role", .str "user"), ("content", .str q)]]),
             ("system", .str sp)] := by
        simp [build_request_data, hsp]
      refine ⟨?_, ?_, ?_, ?_, ?_, ?_, Or.inr ?_⟩
      · rw [hdata]; rfl
      · rw [hdata]; rfl
      · rw [hdata]; rfl
      · intro sp' h h'
        rw [Option.some.injEq] at h
        subst h
        rw [hdata]; rfl
      · intro h
        exact absurd h (by simp)
      · intro h
        rw [Option.some.injEq] at h
        exact absurd h hsp
      · rw [hdata]; rfl

/-- Claim C9 witness: question "hello" with system prompt "sys". -/
theorem c9_witness :
    ((some "sys" : Option String) = some "sys") ∧ ("sys" ≠ "") ∧
    (build_request_data "m" 100 "hello" (some "sys")).lookup "messages"
      = some (.arr [.obj [("role", .str "user"), ("content", .str "hello")]]) ∧
    (build_request_data "m" 100 "hello" (some "sys")).lookup "system" = some (.str "sys") :=
  ⟨rfl, by simp,
    (c9_request_shape "m" 100 "hello" (some "sys")).1,
    (c9_request_shape "m" 100 "hello" (some "sys")).2.2.2.1 "sys" rfl (by simp)⟩

/-- The retry loop with `n` retries remaining after the current attempt
makes at most `n + 1` attempts. -/
theorem retry_run_attempts_le (responses : ℕ → HttpResult) (n : ℕ) :
    ∀ i : ℕ, (retry_run responses n i).2 ≤ n + 1 := by
  induction n with
  | zero => intro i; simp [retry_run]
  | succ n ih =>
      intro i
      unfold retry_run
      cases get_response_attempt (responses i) with
      | ok t => simp
      | error e =>
          simp only []
          exact Nat.succ_le_succ (ih (i + 1))

/-- Claim C2: every completion call makes at most 3 attempts, and a
call failing on the first two attempts and succeeding on the third
returns the third attempt's extracted text after exactly 3 attempts. -/
theorem c2_retry_budget :
    (∀ responses : ℕ → HttpResult, (get_response responses).2 ≤ 3) ∧
    (∀ (responses : ℕ → HttpResult) (e0 e1 : ApiFailure) (t : String),
      get_response_attempt (responses 0) = .error e0 →
      get_response_attempt (responses 1) = .error e1 →
      get_response_attempt (responses 2) = .ok t →
      get_response responses = (.ok t, 3)) := by
  constructor
  · intro responses
    exact retry_run_attempts_le responses 2 0
  · intro responses e0 e1 t h0 h1 h2
    simp [get_response, retry_run, h0, h1, h2]

/-- Claim C2 witness: two connection errors then a well-formed success
body; the call returns the success text on the third attempt. -/
theorem c2_witness :
    get_response_attempt
        ((fun i => if i < 2 then HttpResult.connError else .resp 200 ⟨some [⟨"hi"⟩]⟩) 0)
      = .error .connection ∧
    get_response_attempt
        ((fun i => if i < 2 then HttpResult.connError else .resp 200 ⟨some [⟨"hi"⟩]⟩) 1)
      = .error .connection ∧
    get_response_attempt
        ((fun i => if i < 2 then HttpResult.connError else .resp 200 ⟨some [⟨"hi"⟩]⟩) 2)
      = .ok "hi" ∧
    get_response (fun i => if i < 2 then HttpResult.connError else .resp 200 ⟨some [⟨"hi"⟩]⟩)
      = (.ok "hi", 3) :=
  ⟨rfl, rfl, rfl,
    c2_retry_budget.2 (fun i => if i < 2 then HttpResult.connError else .resp 200 ⟨some [⟨"hi"⟩]⟩)
      .connection .connection "hi" rfl rfl rfl⟩

/-- Claim C1 counterexample: a permanently classified failure (HTTP
400) is retried: the call makes 3 attempts, not the claimed single
attempt. -/
theorem c1_counterexample :
    classifiedPermanent (ApiFailure.http 400) = true ∧
    get_response (fun _ => HttpResult.resp 400 ⟨none⟩) = (.error (.http 400), 3) ∧
    (get_response (fun _ => HttpResult.resp 400 ⟨none⟩)).2 ≠ 1 :=
  ⟨rfl, rfl, by decide⟩

/-- Claim C1 (amended): the retry decorator carries no failure filter,
so a call whose attempts all fail — whether the failures are classified
permanent or transient — makes exactly 3 attempts, consuming the whole
retry budget, and surfaces the last attempt's failure. -/
theorem c1_all_failures_retried (responses : ℕ → HttpResult) (e0 e1 e2 : ApiFailure)
    (h0 : get_response_attempt (responses 0) = .error e0)
    (h1 : get_response_attempt (responses 1) = .error e1)
    (h2 : get_response_attempt (responses 2) = .error e2) :
    get_response responses = (.error e2, 3) := by
  simp [get_response, retry_run, h0, h1, h2]

/-- Claim C1 witness: three permanent HTTP 404 failures consume the
whole budget and surface the last one. -/
theorem c1_witness :
    get_response_attempt ((fun _ => HttpResult.resp 404 ⟨none⟩) 0) = .error (.http 404) ∧
    classifiedPermanent (ApiFailure.http 404) = true ∧
    get_response (fun _ => HttpResult.resp 404 ⟨none⟩) = (.error (.http 404), 3) :=
  ⟨rfl, rfl,
    c1_all_failures_retried (fun _ => HttpResult.resp 404 ⟨none⟩)
      (.http 404) (.http 404) (.http 404) rfl rfl rfl⟩

/-- What a quota denial tells us about the state it was issued on: the
cooldown had passed and the (possibly reset) count was at least the
maximum; with a positive maximum the reset cannot have fired, so the
denial time is at most the recorded reset time and the stored count
itself is at least the maximum. -/
theorem quota_denial_consequences (s : UserRateLimit) (uid : ℤ) (r t t1 : ℕ)
    (hmax : 1 ≤ s.max_messages)
    (hr : s.reset_time uid = some r)
    (hl : s.last_message_time uid = some t)
    (hq : (can_send_message_decision s uid t1).1 = Decision.deniedQuota) :
    t1 ≤ r ∧ s.cooldown_time ≤ (t1 : ℤ) - (t : ℤ) ∧
    s.max_messages ≤ s.message_count uid := by
  have hfr := resetIfPassed_frame s uid t1
  rw [can_send_message_decision_fst] at hq
  unfold decide_admission at hq
  rw [hfr.1, hl, hfr.2.2.1] at hq
  simp only [] at hq
  by_cases hc : (t1 : ℤ) - (t : ℤ) < s.cooldown_time
  · rw [if_pos hc] at hq
    exact absurd hq (by simp)
  · rw [if_neg hc] at hq
    by_cases hcount :
        (resetIfPassed s uid t1).message_count uid < (resetIfPassed s uid t1).max_messages
    · rw [if_pos hcount] at hq
      exact absurd hq (by simp)
    · rw [if_neg hcount] at hq
      rw [hfr.2.2.2.1] at hcount
      by_cases hrt : r < t1
      · rw [resetIfPassed_count_reset s uid t1 r hr hrt] at hcount
        omega
      · have hkeep : resetIfPassed s uid t1 = s := by
          apply resetIfPassed_eq_self
          intro rt hrt'
          rw [hr] at hrt'
          cases hrt'
          exact hrt
        rw [hkeep] at hcount
        exact ⟨Nat.le_of_not_lt hrt, Int.not_lt.mp hc, Nat.le_of_not_lt hcount⟩

/-- Claim C6 counterexample: with `max_messages_per_hour = 0`, a user
who was quota-denied is checked again after the recorded reset time
has passed; the count is reset to 0 but the check is still denied, so
the claimed re-admission fails for this configuration. -/
theorem c6_counterexample :
    (can_send_message_decision (update_user (UserRateLimit.mk0 0 5) 1 0) 1 10).1
      = Decision.deniedQuota ∧
    (update_user (UserRateLimit.mk0 0 5) 1 0).reset_time 1 = some 3600 ∧
    (can_send_message_decision (update_user (UserRateLimit.mk0 0 5) 1 0) 1 4000).2.message_count 1
      = 0 ∧
    (can_send_message_decision (update_user (UserRateLimit.mk0 0 5) 1 0) 1 4000).1
      ≠ Decision.admitted := by
  decide

/-- Claim C6 (amended): with a positive message maximum, once the
current time is strictly past the recorded reset time, the next check
of a previously quota-denied user sets the count to exactly 0 and
admits the user; a further check on the resulting state leaves the
count at 0 (the reset is idempotent, happening once per boundary), and
`update_user` always stores as reset time the start of the clock hour
after the update (a multiple of 3600 strictly after `now`). -/
theorem c6_window_reset (s : UserRateLimit) (uid : ℤ) (r t t1 t' : ℕ)
    (hmax : 1 ≤ s.max_messages)
    (hr : s.reset_time uid = some r)
    (hl : s.last_message_time uid = some t)
    (hq : (can_send_message_decision s uid t1).1 = Decision.deniedQuota)
    (ht' : r < t') :
    (can_send_message_decision s uid t').2.message_count uid = 0 ∧
    (can_send_message_decision s uid t').1 = Decision.admitted ∧
    (∀ t'' : ℕ,
      (can_send_message_decision ((can_send_message_decision s uid t').2) uid t'').2.message_count
        uid = 0) ∧
    (∀ (s2 : UserRateLimit) (u : ℤ) (n : ℕ),
      (update_user s2 u n).reset_time u = some ((n / 3600 + 1) * 3600) ∧
      n < (n / 3600 + 1) * 3600 ∧ (n / 3600 + 1) * 3600 % 3600 = 0) := by
  obtain ⟨ht1r, hcdle, hcount⟩ := quota_denial_consequences s uid r t t1 hmax hr hl hq
  have hzero : (can_send_message_decision s uid t').2.message_count uid = 0 := by
    rw [can_send_message_decision_snd]
    exact resetIfPassed_count_reset s uid t' r hr ht'
  have hfr := resetIfPassed_frame s uid t'
  refine ⟨hzero, ?_, ?_, ?_⟩
  · rw [can_send_message_decision_fst]
    unfold decide_admission
    rw [hfr.1, hl, hfr.2.2.1]
    simp only []
    have hnc : ¬ ((t' : ℤ) - (t : ℤ) < s.cooldown_time) := by omega
    rw [if_neg hnc, resetIfPassed_count_reset s uid t' r hr ht', hfr.2.2.2.1,
      if_pos (Nat.lt_of_lt_of_le Nat.zero_lt_one hmax)]
  · intro t''
    rw [can_send_message_decision_snd, can_send_message_decision_snd]
    rcases resetIfPassed_count_cases ((resetIfPassed s uid t')) uid t'' with h | h
    · rw [h]
      rw [can_send_message_decision_snd] at hzero
      exact hzero
    · exact h
  · intro s2 u n
    have harith : n / 3600 * 3600 + 3600 = (n / 3600 + 1) * 3600 := by ring
    refine ⟨?_, by omega, by omega⟩
    simp [update_user, updMap, harith]

/-- Session invariant for the check-then-record loop: from a state
recording the user's last message at `t0`, count `k` and reset time at
the end of clock hour `H`, running messages all inside hour `H`, each
at least the cooldown after its predecessor, with `k` plus their
number equal to the maximum, every message is admitted and recorded,
and the next check — inside hour `H`, at least the cooldown after the
last message — is denied through the quota branch. -/
theorem process_messages_quota (uid : ℤ) (H : ℕ) (t' : ℕ) (ts : List ℕ) :
    ∀ (s : UserRateLimit) (k t0 : ℕ),
    s.last_message_time uid = some t0 →
    s.message_count uid = k →
    s.reset_time uid = some ((H + 1) * 3600) →
    k + ts.length = s.max_messages →
    (∀ x ∈ ts, x / 3600 = H) →
    t' / 3600 = H →
    List.Chain' (fun a b : ℕ => (a : ℤ) + s.cooldown_time ≤ (b : ℤ)) (t0 :: (ts ++ [t'])) →
    (can_send_message_decision (process_messages s uid ts) uid t').1
      = Decision.deniedQuota := by
  induction ts with
  | nil =>
      intro s k t0 hl hk hr hM hhour hhour' hchain
      simp only [List.nil_append] at hchain
      have hR := (List.chain'_cons.mp hchain).1
      have hself : resetIfPassed s uid t' = s := by
        apply resetIfPassed_eq_self
        intro rt hrt
        rw [hr] at hrt
        cases hrt
        omega
      show (can_send_message_decision s uid t').1 = Decision.deniedQuota
      rw [can_send_message_decision_fst, hself]
      unfold decide_admission
      rw [hl]
      simp only []
      have hnc : ¬ ((t' : ℤ) - (t0 : ℤ) < s.cooldown_time) := by omega
      rw [if_neg hnc, hk]
      have hge : ¬ (k < s.max_messages) := by
        simp only [List.length_nil, Nat.add_zero] at hM
        omega
      rw [if_neg hge]
  | cons t ts ih =>
      intro s k t0 hl hk hr hM hhour hhour' hchain
      simp only [List.cons_append] at hchain
      have hR := (List.chain'_cons.mp hchain).1
      have hchain' := (List.chain'_cons.mp hchain).2
      have hht : t / 3600 = H := hhour t (by simp)
      have hself : resetIfPassed s uid t = s := by
        apply resetIfPassed_eq_self
        intro rt hrt
        rw [hr] at hrt
        cases hrt
        omega
      have hdec : (can_send_message_decision s uid t).1 = Decision.admitted := by
        rw [can_send_message_decision_fst, hself]
        unfold decide_admission
        rw [hl]
        simp only []
        have hnc : ¬ ((t : ℤ) - (t0 : ℤ) < s.cooldown_time) := by omega
        rw [if_neg hnc, hk]
        have hlt : k < s.max_messages := by
          simp only [List.length_cons] at hM
          omega
        rw [if_pos hlt]
      have hstep : process_message s uid t = update_user s uid t := by
        simp [process_message, can_send_message, hdec, can_send_message_decision_snd, hself]
      rw [process_messages, hstep]
      apply ih (update_user s uid t) (k + 1) t
      · simp [update_user, updMap]
      · simp [update_user, updMap, hk]
      · simp only [update_user, updMap, if_pos rfl]
        have : t / 3600 * 3600 + 3600 = (H + 1) * 3600 := by omega
        simp [this]
      · show k + 1 + ts.length = s.max_messages
        simp only [List.length_cons] at hM
        omega
      · exact fun x hx => hhour x (List.mem_cons_of_mem t hx)
      · exact hhour'
      · exact hchain'

/-- Claim C7: starting from a fresh state, a user who has exactly
`max_messages_per_hour` messages admitted and recorded inside one
clock hour, each at least the cooldown after the previous one, is
denied through the quota branch at the next check, itself inside the
same hour and at least the cooldown after the last message. -/
theorem c7_quota_after_max (maxMsgs : ℕ) (cd : ℤ) (uid : ℤ) (H : ℕ) (ts : List ℕ)
    (t' : ℕ)
    (hlen : ts.length = maxMsgs)
    (hhour : ∀ x ∈ ts, x / 3600 = H)
    (hhour' : t' / 3600 = H)
    (hchain : List.Chain' (fun a b : ℕ => (a : ℤ) + cd ≤ (b : ℤ)) (ts ++ [t'])) :
    (can_send_message_decision (process_messages (UserRateLimit.mk0 maxMsgs cd) uid ts) uid t').1
      = Decision.deniedQuota := by
  cases ts with
  | nil =>
      have h0 : maxMsgs = 0 := by simpa using hlen.symm
      subst h0
      simp [process_messages, can_send_message_decision, resetIfPassed, decide_admission,
        UserRateLimit.mk0]
  | cons t ts0 =>
      have hht : t / 3600 = H := hhour t (by simp)
      have hself : resetIfPassed (UserRateLimit.mk0 maxMsgs cd) uid t
          = UserRateLimit.mk0 maxMsgs cd := by
        apply resetIfPassed_eq_self
        intro rt hrt
        simp [UserRateLimit.mk0] at hrt
      have hM0 : 0 < maxMsgs := by
        simp only [List.length_cons] at hlen
        omega
      have hdec : (can_send_message_decision (UserRateLimit.mk0 maxMsgs cd) uid t).1
          = Decision.admitted := by
        rw [can_send_message_decision_fst, hself]
        unfold decide_admission
        simp [UserRateLimit.mk0, hM0]
      have hstep : process_message (UserRateLimit.mk0 maxMsgs cd) uid t
          = update_user (UserRateLimit.mk0 maxMsgs cd) uid t := by
        simp [process_message, can_send_message, hdec, can_send_message_decision_snd, hself]
      rw [process_messages, hstep]
      apply process_messages_quota uid H t' ts0 (update_user (UserRateLimit.mk0 maxMsgs cd) uid t)
        1 t
      · simp [update_user, updMap]
      · simp [update_user, updMap, UserRateLimit.mk0]
      · simp only [update_user, updMap, if_pos rfl]
        have : t / 3600 * 3600 + 3600 = (H + 1) * 3600 := by omega
        simp [this]
      · show 1 + ts0.length = maxMsgs
        simp only [List.length_cons] at hlen
        omega
      · exact fun x hx => hhour x (List.mem_cons_of_mem t hx)
      · exact hhour'
      · have hc := hchain
        simp only [List.cons_append] at hc
        exact hc

/-- Claim C7 witness: limit 2, cooldown 5; messages at times 0 and 5
inside hour 0, next check at time 10 is denied through the quota
branch. -/
theorem c7_witness :
    ([0, 5] : List ℕ).length = 2 ∧
    (∀ x ∈ ([0, 5] : List ℕ), x / 3600 = 0) ∧
    (10 : ℕ) / 3600 = 0 ∧
    List.Chain' (fun a b : ℕ => (a : ℤ) + 5 ≤ (b : ℤ)) (([0, 5] : List ℕ) ++ [10]) ∧
    (can_send_message_decision (process_messages (UserRateLimit.mk0 2 5) 1 [0, 5]) 1 10).1
      = Decision.deniedQuota := by
  have hch : List.Chain' (fun a b : ℕ => (a : ℤ) + 5 ≤ (b : ℤ)) (([0, 5] : List ℕ) ++ [10]) := by
    norm_num [List.chain'_cons]
  exact ⟨rfl, by decide, rfl, hch,
    c7_quota_after_max 2 5 1 0 [0, 5] 10 rfl (by decide) rfl hch⟩

/-- Claim C6 witness: a user at the 1-message-per-hour limit,
quota-denied at t = 200, is admitted again at t = 4000 (past the hour
boundary 3600) with the count reset to 0. -/
theorem c6_witness :
    (update_user (UserRateLimit.mk0 1 5) 1 100).reset_time 1 = some 3600 ∧
    (can_send_message_decision (update_user (UserRateLimit.mk0 1 5) 1 100) 1 200).1
      = Decision.deniedQuota ∧
    (can_send_message_decision (update_user (UserRateLimit.mk0 1 5) 1 100) 1 4000).2.message_count 1
      = 0 ∧
    (can_send_message_decision (update_user (UserRateLimit.mk0 1 5) 1 100) 1 4000).1
      = Decision.admitted :=
  ⟨rfl, by decide,
    (c6_window_reset (update_user (UserRateLimit.mk0 1 5) 1 100) 1 3600 100 200 4000
      (by decide) rfl rfl (by decide) (by decide)).1,
    (c6_window_reset (update_user (UserRateLimit.mk0 1 5) 1 100) 1 3600 100 200 4000
      (by decide) rfl rfl (by decide) (by decide)).2.1⟩
